import Mathlib

/-!
Verification of the Fubon account adapter (`fubon_account.py`).

The Python source is shallowly embedded: prices and quantities are modelled
as rationals (`ℚ`), Python `int()` truncation as `pyInt`, raw broker records
as structures whose optional fields model `getattr`/`dict.get` probing, and
the venue-facing side effects of `create_order` / `update_order` /
`cancel_order` as explicit lists of `VenueCall` values, with an oracle
`succ : VenueCall → Bool` standing for the venue's success flag on each call.
-/

namespace Fubon

/-- Python `int()` on a rational: truncation toward zero.  `Rat` is stored
normalized with a positive denominator, and `Int.div` is T-division
(rounds toward zero), so this is exactly Python's `int(float)`. -/
def pyInt (q : ℚ) : Int := Int.tdiv q.num q.den

/-- finlab `Action`. -/
inductive Action where
  | BUY
  | SELL
deriving DecidableEq, Repr

/-- finlab `OrderStatus`. -/
inductive OrderStatus where
  | NEW
  | PARTIALLY_FILLED
  | FILLED
  | CANCEL
deriving DecidableEq, Repr

/-- finlab `OrderCondition`. -/
inductive OrderCondition where
  | CASH
  | MARGIN_TRADING
  | SHORT_SELLING
  | DAY_TRADING_SHORT
deriving DecidableEq, Repr

/-- fubon_neo `MarketType` (the members used by the source). -/
inductive MarketType where
  | Common
  | IntradayOdd
  | Odd
  | EmgOdd
  | Fixing
deriving DecidableEq, Repr

/-- fubon_neo `PriceType` (the members used by the source). -/
inductive PriceType where
  | Limit
  | LimitUp
  | LimitDown
deriving DecidableEq, Repr

/-- fubon_neo `BSAction`. -/
inductive BSAction where
  | Buy
  | Sell
deriving DecidableEq, Repr

/-- fubon_neo `OrderType`. -/
inductive OrderType where
  | Stock
  | Margin
  | Short
  | DayTrade
deriving DecidableEq, Repr

/-- fubon_neo `TimeInForce` (only ROD is used). -/
inductive TimeInForce where
  | ROD
deriving DecidableEq, Repr

/-- Raw broker order record (the fields of the fubon order object that the
source reads via `getattr`; `none` models an absent attribute, in which case
the `getattr` default applies). -/
structure ORecord where
  order_no : String
  stock_no : String
  price : Option ℚ
  status : Int
  filled_qty : Option ℚ
  after_qty : Option ℚ
  quantity : Option ℚ
  market_type : Option MarketType
  buy_sell : Option BSAction
  order_type : Option OrderType
  can_cancel : Option Bool
deriving DecidableEq, Repr

/-- Status parsing part of `_create_finlab_order` (lines 248-265): the code
initialises `status = NEW`, overwrites it from the status code, then forces
`PARTIALLY_FILLED` when `filled_qty > 0 and filled_qty < after_qty and
status != CANCEL`. -/
def statusFromCode (code : Int) : OrderStatus :=
  if code = 10 then OrderStatus.NEW
  else if code = 30 then OrderStatus.CANCEL
  else if code = 50 then OrderStatus.FILLED
  else if code = 90 then OrderStatus.CANCEL
  else OrderStatus.NEW

/-- The full status computation of `_create_finlab_order` on the raw triple. -/
def orderStatusOf (code : Int) (filled_qty after_qty : ℚ) : OrderStatus :=
  let status := statusFromCode code
  if filled_qty > 0 ∧ filled_qty < after_qty ∧ status ≠ OrderStatus.CANCEL then
    OrderStatus.PARTIALLY_FILLED
  else status

/-- Mapping `_map_order_action` (line 170), restricted to the enum-valued branch; the
failure branch is caught in `_create_finlab_order` and defaults to BUY. -/
def mapOrderAction (bs : Option BSAction) : Action :=
  match bs with
  | some BSAction.Buy => Action.BUY
  | some BSAction.Sell => Action.SELL
  | none => Action.BUY

/-- Mapping `_map_order_condition` (line 195), enum-valued branch with the CASH
default. -/
def mapOrderCondition (ot : Option OrderType) : OrderCondition :=
  match ot with
  | some OrderType.Margin => OrderCondition.MARGIN_TRADING
  | some OrderType.Short => OrderCondition.SHORT_SELLING
  | some OrderType.DayTrade => OrderCondition.DAY_TRADING_SHORT
  | _ => OrderCondition.CASH

/-- Whether a raw record's market type is in the odd-lot family
`[IntradayOdd, Odd, EmgOdd]` (an absent attribute is not in the list). -/
def oddFamily (mt : Option MarketType) : Bool :=
  mt = some MarketType.IntradayOdd || mt = some MarketType.Odd ||
    mt = some MarketType.EmgOdd

/-- finlab `Order` as built by `_create_finlab_order` (the `time` field,
which no claim concerns, is omitted). -/
structure COrder where
  order_id : String
  stock_id : String
  action : Action
  price : ℚ
  quantity : ℚ
  filled_quantity : ℚ
  status : OrderStatus
  order_condition : OrderCondition
  org_order : ORecord
deriving DecidableEq, Repr

/-- Normalizer `_create_finlab_order` (lines 231-333), without the timestamp parsing. -/
def createFinlabOrder (orec : ORecord) : COrder :=
  let filled_qty := orec.filled_qty.getD 0
  let after_qty := orec.after_qty.getD 0
  let is_odd_lot := oddFamily orec.market_type
  let divisor : ℚ := if is_odd_lot then 1 else 1000
  { order_id := orec.order_no
    stock_id := orec.stock_no
    action := mapOrderAction orec.buy_sell
    price := orec.price.getD 0
    quantity := after_qty / divisor
    filled_quantity := filled_qty / divisor
    status := orderStatusOf orec.status filled_qty after_qty
    order_condition := mapOrderCondition orec.order_type
    org_order := orec }

/-- The status rule exactly as claim C2 words it: a stateless map from the
code (10 to NEW, 30 to CANCEL, 50 to FILLED, 90 to CANCEL, default NEW),
overridden to PARTIALLY_FILLED when `0 < filled < total` and the
code-derived status is not CANCEL. -/
def statusSpecC2 (code : Int) (filled_qty total_qty : ℚ) : OrderStatus :=
  let mapped :=
    if code = 10 then OrderStatus.NEW
    else if code = 30 then OrderStatus.CANCEL
    else if code = 50 then OrderStatus.FILLED
    else if code = 90 then OrderStatus.CANCEL
    else OrderStatus.NEW
  if 0 < filled_qty ∧ filled_qty < total_qty ∧ mapped ≠ OrderStatus.CANCEL then
    OrderStatus.PARTIALLY_FILLED
  else mapped

/-- Comparison `datetime.time(h1, m1) < datetime.time(h2, m2)`: lexicographic comparison
on (hour, minute) — `create_order` builds its times from `now.hour` and
`now.minute` only, so seconds never participate. -/
def timeLt (h1 m1 h2 m2 : Nat) : Bool :=
  decide (h1 < h2) || (decide (h1 = h2) && decide (m1 < m2))

/-- Session classification of `create_order` (lines 721-730): default market
type from `odd_lot`, then the post-market odd window, then the fixing
window, each by strict `datetime.time` comparison at minute resolution. -/
def marketTypeOf (odd_lot : Bool) (nowH nowM : Nat) : MarketType :=
  let market_type := if odd_lot then MarketType.IntradayOdd else MarketType.Common
  let market_type :=
    if timeLt 13 40 nowH nowM && timeLt nowH nowM 14 30 && odd_lot then
      MarketType.Odd
    else market_type
  if timeLt 14 0 nowH nowM && timeLt nowH nowM 14 30 && !odd_lot then
    MarketType.Fixing
  else market_type

/-- Price-type resolution of `create_order` (lines 732-746): `market_order`
is applied first (price cleared, limit-up for Buy, limit-down for Sell),
`best_price_limit` second (price cleared, limit-down for Buy, limit-up for
Sell), so when both flags are set the second check overwrites the first. -/
def resolvePriceType (action : Action) (market_order best_price_limit : Bool)
    (price : Option ℚ) : Option ℚ × PriceType :=
  let price_type := PriceType.Limit
  let (price, price_type) :=
    if market_order then
      (none, if action = Action.BUY then PriceType.LimitUp else PriceType.LimitDown)
    else (price, price_type)
  if best_price_limit then
    (none, if action = Action.BUY then PriceType.LimitDown else PriceType.LimitUp)
  else (price, price_type)

/-- Trading-condition mapping of `create_order` (lines 748-755). -/
def mapCondToOrderType (cond : OrderCondition) : OrderType :=
  match cond with
  | OrderCondition.MARGIN_TRADING => OrderType.Margin
  | OrderCondition.SHORT_SELLING => OrderType.Short
  | OrderCondition.DAY_TRADING_SHORT => OrderType.DayTrade
  | OrderCondition.CASH => OrderType.Stock

/-- Lot conversion of `create_order` (line 763):
`int(quantity) if odd_lot else int(quantity * 1000)`. -/
def convertQty (odd_lot : Bool) (quantity : ℚ) : Int :=
  if odd_lot then pyInt quantity else pyInt (quantity * 1000)

/-- The fubon `Order` object handed to `place_order` (the price is kept as a
rational rather than its decimal string rendering). -/
structure FBOrder where
  buy_sell : BSAction
  symbol : String
  price : Option ℚ
  quantity : Int
  market_type : MarketType
  price_type : PriceType
  time_in_force : TimeInForce
  order_type : OrderType
deriving DecidableEq, Repr

/-- The single validation fault of `create_order`:
`raise ValueError("委託數量必須大於零")` on a non-positive quantity. -/
inductive CreateOrderError where
  | invalidQuantity
deriving DecidableEq, Repr

/-- Builder `create_order` (lines 695-789) up to the venue submission: validation,
then construction of the `FBOrder`.  The wall clock enters only through
(`nowH`, `nowM`). -/
def createOrderResult (action : Action) (stock_id : String) (quantity : ℚ)
    (price : Option ℚ) (odd_lot best_price_limit market_order : Bool)
    (order_cond : OrderCondition) (nowH nowM : Nat) :
    Except CreateOrderError FBOrder :=
  if quantity ≤ 0 then Except.error CreateOrderError.invalidQuantity
  else
    let buy_sell := if action = Action.BUY then BSAction.Buy else BSAction.Sell
    let market_type := marketTypeOf odd_lot nowH nowM
    let (price, price_type) := resolvePriceType action market_order best_price_limit price
    let order_type := mapCondToOrderType order_cond
    let time_in_force := TimeInForce.ROD
    let qty := convertQty odd_lot quantity
    Except.ok
      { buy_sell := buy_sell
        symbol := stock_id
        price := price
        quantity := qty
        market_type := market_type
        price_type := price_type
        time_in_force := time_in_force
        order_type := order_type }

/-- A side-effecting call against the venue.  Query calls (`get_orders`,
`get_order_results`) are not side effects and are modelled as inputs. -/
inductive VenueCall where
  | modifyQuantity (orec : ORecord) (new_qty : Int)
  | modifyPrice (orec : ORecord) (new_price : ℚ)
  | cancelOrder (orec : ORecord)
  | placeOrder (order : FBOrder)
deriving DecidableEq, Repr

/-- The venue calls `create_order` issues: nothing when validation fails,
one `place_order` otherwise. -/
def createOrderCalls (action : Action) (stock_id : String) (quantity : ℚ)
    (price : Option ℚ) (odd_lot best_price_limit market_order : Bool)
    (order_cond : OrderCondition) (nowH nowM : Nat) : List VenueCall :=
  match createOrderResult action stock_id quantity price odd_lot
      best_price_limit market_order order_cond nowH nowM with
  | Except.error _ => []
  | Except.ok order => [VenueCall.placeOrder order]

/-- Session classification exactly as claim C4 words it: a fractional order
strictly between 13:40 and 14:30 goes to the post-market odd session, a
non-fractional order strictly between 14:00 and 14:30 to the fixing
session, otherwise fractional maps to intraday-odd and non-fractional to
the common session. -/
def sessionSpecC4 (fractional : Bool) (nowH nowM : Nat) : MarketType :=
  if fractional && timeLt 13 40 nowH nowM && timeLt nowH nowM 14 30 then
    MarketType.Odd
  else if !fractional && timeLt 14 0 nowH nowM && timeLt nowH nowM 14 30 then
    MarketType.Fixing
  else if fractional then MarketType.IntradayOdd
  else MarketType.Common

/-- Dictionary lookup on the map returned by `get_orders` (an association
list keyed by order id). -/
def lookupOrder : List (String × COrder) → String → Option COrder
  | [], _ => none
  | (k, o) :: rest, order_id =>
      if k = order_id then some o else lookupOrder rest order_id

/-- Mutation engine `update_order` (lines 818-911), as the list of venue calls it issues.
`orders` is the map `self.get_orders()` returned, and `succ` tells whether a
given venue call reports success.  The price axis runs first: on an odd-lot
family order it cancels by modifying the quantity to 0 and, when that
succeeded and the unfilled remainder `after_qty - filled_qty` is positive,
re-creates the order through `create_order(..., quantity=qty/1000,
odd_lot=True)`; when the cancel fails the function returns early.  On a
whole-lot order it issues a direct price modify.  The quantity axis then
sends one modify-quantity call with
`int(quantity [*1000 when whole-lot]) + int(filled_qty)`. -/
def updateOrderCalls (orders : List (String × COrder)) (order_id : String)
    (price : Option ℚ) (quantity : Option ℚ) (succ : VenueCall → Bool)
    (nowH nowM : Nat) : List VenueCall :=
  match lookupOrder orders order_id with
  | none => []
  | some order =>
    let orec := order.org_order
    let quantityCalls : List VenueCall :=
      match quantity with
      | none => []
      | some q =>
        let is_odd_lot := oddFamily orec.market_type
        let filled_qty := orec.filled_qty.getD 0
        let new_qty :=
          if is_odd_lot then pyInt q + pyInt filled_qty
          else pyInt (q * 1000) + pyInt filled_qty
        [VenueCall.modifyQuantity orec new_qty]
    match price with
    | none => quantityCalls
    | some p =>
      if oddFamily orec.market_type then
        let filled_qty := orec.filled_qty.getD 0
        let org_qty := (orec.after_qty.orElse fun _ => orec.quantity).getD 0
        let qty := org_qty - filled_qty
        if succ (VenueCall.modifyQuantity orec 0) then
          VenueCall.modifyQuantity orec 0 ::
            ((if qty > 0 then
                createOrderCalls order.action order.stock_id (qty / 1000)
                  (some p) true false false OrderCondition.CASH nowH nowM
              else []) ++ quantityCalls)
        else [VenueCall.modifyQuantity orec 0]
      else VenueCall.modifyPrice orec p :: quantityCalls

/-- Cancellation `cancel_order` (lines 913-949), as the list of venue calls it issues. -/
def cancelOrderCalls (orders : List (String × COrder)) (order_id : String) :
    List VenueCall :=
  match lookupOrder orders order_id with
  | none => []
  | some order =>
    if order.org_order.can_cancel.getD true then
      [VenueCall.cancelOrder order.org_order]
    else []

/-- Native-unit conversion of a requested quantity as claim C1 words it:
multiplied by 1000 for whole-lot orders, taken as-is for odd-lot orders. -/
def nativeQtySpecC1 (is_odd_lot : Bool) (quantity : ℚ) : Int :=
  if is_odd_lot then pyInt quantity else pyInt (quantity * 1000)

/-- A concrete whole-lot order record with 300 native shares filled, used by
the C1 witness. -/
def wholeRec300 : ORecord :=
  { order_no := "W1"
    stock_no := "2330"
    price := some 500
    status := 10
    filled_qty := some 300
    after_qty := some 1000
    quantity := none
    market_type := some MarketType.Common
    buy_sell := some BSAction.Buy
    order_type := some OrderType.Stock
    can_cancel := some true }

/-- A concrete intraday-odd order record with 100 native shares resting and
nothing filled, used by the C3 evaluation. -/
def oddRec100 : ORecord :=
  { order_no := "O1"
    stock_no := "0056"
    price := some 32
    status := 10
    filled_qty := some 0
    after_qty := some 100
    quantity := none
    market_type := some MarketType.IntradayOdd
    buy_sell := some BSAction.Buy
    order_type := some OrderType.Stock
    can_cancel := some true }

/-- Python truthiness of an optional string: `None` and `""` are falsy. -/
def truthyStr (s : Option String) : Bool :=
  match s with
  | none => false
  | some v => v ≠ ""

/-- One level of a bid/ask book entry: the `price`/`size` fields that may be
present on the record. -/
structure BidAskFields where
  price : Option ℚ
  size : Option ℚ
deriving DecidableEq, Repr

/-- A bid/ask book entry, which the source probes either as a dict (when
`isinstance(e, dict) and 'price' in e`) or through `getattr`. -/
inductive BidAskItem where
  | dict (f : BidAskFields)
  | obj (f : BidAskFields)
deriving DecidableEq, Repr

/-- Best bid/ask price extraction of `_create_finlab_stock` (lines 423-440):
a dict entry whose `price` key is present reads `price` with `get`; any
other entry goes through `getattr` with default 0 — in particular a dict
entry without a `price` key yields 0 because a dict has no attributes. -/
def baPrice (e : BidAskItem) : ℚ :=
  match e with
  | BidAskItem.dict f => match f.price with | some p => p | none => 0
  | BidAskItem.obj f => f.price.getD 0

/-- Best bid/ask size extraction, same branch structure as `baPrice`. -/
def baSize (e : BidAskItem) : ℚ :=
  match e with
  | BidAskItem.dict f => match f.price with | some _ => f.size.getD 0 | none => 0
  | BidAskItem.obj f => f.size.getD 0

/-- A quote record in dict shape (`quote.get` access mode, lines 394-399 and
410-411). -/
structure QuoteDictR where
  symbol : Option String
  openPrice : Option ℚ
  highPrice : Option ℚ
  lowPrice : Option ℚ
  closePrice : Option ℚ
  bids : List BidAskItem
  asks : List BidAskItem
deriving DecidableEq, Repr

/-- A quote record in object shape (`getattr` access mode with aliased field
names, lines 400-405 and 413-415). -/
structure QuoteObjR where
  symbol : Option String
  open_price : Option ℚ
  openPrice : Option ℚ
  high_price : Option ℚ
  highPrice : Option ℚ
  low_price : Option ℚ
  lowPrice : Option ℚ
  close_price : Option ℚ
  closePrice : Option ℚ
  lastPrice : Option ℚ
  bids : List BidAskItem
  asks : List BidAskItem
deriving DecidableEq, Repr

/-- The two record shapes `_create_finlab_stock` accepts. -/
inductive QuoteRecord where
  | dict (r : QuoteDictR)
  | obj (r : QuoteObjR)
deriving DecidableEq, Repr

/-- First-hit probe over two aliased optional fields. -/
def opt2 (a b : Option ℚ) : Option ℚ :=
  match a with
  | some v => some v
  | none => b

/-- First-hit probe over three aliased optional fields. -/
def opt3 (a b c : Option ℚ) : Option ℚ :=
  opt2 a (opt2 b c)

/-- Probe `float(getattr(q, k1, getattr(q, k2, 0)) or 0)`: first present alias,
default 0. -/
def probe2 (a b : Option ℚ) : ℚ :=
  (opt2 a b).getD 0

/-- Three-alias variant of `probe2` (used for the close price). -/
def probe3 (a b c : Option ℚ) : ℚ :=
  (opt3 a b c).getD 0

/-- finlab `Stock` (a canonical quote).  `open` is a reserved word in Lean,
hence the trailing underscore. -/
structure Stock where
  stock_id : Option String
  open_ : ℚ
  high : ℚ
  low : ℚ
  close : ℚ
  bid_price : ℚ
  ask_price : ℚ
  bid_volume : ℚ
  ask_volume : ℚ
deriving DecidableEq, Repr

/-- The shared tail of `_create_finlab_stock` (lines 417-457): best bid/ask
from the first list elements, then the final fallback of the instrument id
(`if not stock_id and original_stock_id`). -/
def finishStock (stock_id0 : Option String) (open_price high_price low_price
    close_price : ℚ) (bids asks : List BidAskItem)
    (original_stock_id : Option String) : Stock :=
  let bid_price := match bids with | [] => 0 | e :: _ => baPrice e
  let bid_volume := match bids with | [] => 0 | e :: _ => baSize e
  let ask_price := match asks with | [] => 0 | e :: _ => baPrice e
  let ask_volume := match asks with | [] => 0 | e :: _ => baSize e
  let stock_id :=
    if !truthyStr stock_id0 && truthyStr original_stock_id then original_stock_id
    else stock_id0
  { stock_id := stock_id
    open_ := open_price
    high := high_price
    low := low_price
    close := close_price
    bid_price := bid_price
    ask_price := ask_price
    bid_volume := bid_volume
    ask_volume := ask_volume }

/-- Normalizer `_create_finlab_stock` (lines 378-470).  The function is total: every
record shape yields a populated `Stock`, missing fields degrade to 0 and a
missing symbol degrades to the fallback id. -/
def createFinlabStock (quote : QuoteRecord) (original_stock_id : Option String) :
    Stock :=
  match quote with
  | QuoteRecord.dict r =>
    let stock_id :=
      match r.symbol with
      | some s => some s
      | none => original_stock_id
    finishStock stock_id (r.openPrice.getD 0) (r.highPrice.getD 0)
      (r.lowPrice.getD 0) (r.closePrice.getD 0) r.bids r.asks original_stock_id
  | QuoteRecord.obj r =>
    let stock_id :=
      match r.symbol with
      | some s => some s
      | none => some (original_stock_id.getD "")
    finishStock stock_id (probe2 r.open_price r.openPrice)
      (probe2 r.high_price r.highPrice) (probe2 r.low_price r.lowPrice)
      (probe3 r.close_price r.closePrice r.lastPrice) r.bids r.asks
      original_stock_id

/-- The open-price aliases of a record, in probing order. -/
def openOf (q : QuoteRecord) : Option ℚ :=
  match q with
  | QuoteRecord.dict r => r.openPrice
  | QuoteRecord.obj r => opt2 r.open_price r.openPrice

/-- The high-price aliases of a record, in probing order. -/
def highOf (q : QuoteRecord) : Option ℚ :=
  match q with
  | QuoteRecord.dict r => r.highPrice
  | QuoteRecord.obj r => opt2 r.high_price r.highPrice

/-- The low-price aliases of a record, in probing order. -/
def lowOf (q : QuoteRecord) : Option ℚ :=
  match q with
  | QuoteRecord.dict r => r.lowPrice
  | QuoteRecord.obj r => opt2 r.low_price r.lowPrice

/-- The close-price aliases of a record, in probing order. -/
def closeOf (q : QuoteRecord) : Option ℚ :=
  match q with
  | QuoteRecord.dict r => r.closePrice
  | QuoteRecord.obj r => opt3 r.close_price r.closePrice r.lastPrice

/-- The symbol field of a record. -/
def symbolOf (q : QuoteRecord) : Option String :=
  match q with
  | QuoteRecord.dict r => r.symbol
  | QuoteRecord.obj r => r.symbol

/-- The bid list of a record. -/
def bidsOf (q : QuoteRecord) : List BidAskItem :=
  match q with
  | QuoteRecord.dict r => r.bids
  | QuoteRecord.obj r => r.bids

/-- The ask list of a record. -/
def asksOf (q : QuoteRecord) : List BidAskItem :=
  match q with
  | QuoteRecord.dict r => r.asks
  | QuoteRecord.obj r => r.asks

/-- An entirely empty object-shaped quote record. -/
def emptyObjQuote : QuoteRecord :=
  QuoteRecord.obj
    { symbol := none
      open_price := none
      openPrice := none
      high_price := none
      highPrice := none
      low_price := none
      lowPrice := none
      close_price := none
      closePrice := none
      lastPrice := none
      bids := []
      asks := [] }

/-- A dict-shaped quote record with data, used by the C6 witness. -/
def sampleDictQuote : QuoteRecord :=
  QuoteRecord.dict
    { symbol := some "2330"
      openPrice := some 98
      highPrice := some 102
      lowPrice := some 96
      closePrice := some 100
      bids := [BidAskItem.dict { price := some 99, size := some 1000 }]
      asks := [BidAskItem.obj { price := some 101, size := none }] }

/-- The `odd` sub-record of an inventory record (`inventory.odd`). -/
structure OddRec where
  today_qty : Option ℚ
deriving DecidableEq, Repr

/-- A raw inventory record as read by `get_position` (lines 498-543). -/
structure Inventory where
  stock_no : String
  order_type : Option OrderType
  today_qty : Option ℚ
  odd : Option OddRec
deriving DecidableEq, Repr

/-- One canonical position entry (the dicts appended to `positions`). -/
structure PosEntry where
  stock_id : String
  quantity : ℚ
  order_condition : OrderCondition
deriving DecidableEq, Repr

/-- The odd-lot quantity `get_position` reads from a record: the sub-record's
`today_qty` when it is present, 0 otherwise. -/
def oddQtyOf (inv : Inventory) : ℚ :=
  match inv.odd with
  | some o => o.today_qty.getD 0
  | none => 0

/-- Handling by `get_position` of one inventory record (lines 498-543): an
empty instrument id is skipped; `if not today_qty: continue` skips the
whole record (odd-lot block included) when the whole-lot quantity is zero or
absent; otherwise the odd-lot entry is appended when the odd sub-record's
quantity is truthy and positive, then the whole-lot entry when `today_qty`
is positive; the sign is negative under the short-selling condition.  The
inline order-type mapping is the same enum mapping as
`_map_order_condition`, hence the reuse of `mapOrderCondition`. -/
def positionsOf (inv : Inventory) : List PosEntry :=
  if inv.stock_no = "" then []
  else
    let order_condition := mapOrderCondition inv.order_type
    let today_qty := inv.today_qty.getD 0
    if today_qty = 0 then []
    else
      let quantity_sign : ℚ :=
        if order_condition = OrderCondition.SHORT_SELLING then -1 else 1
      let quantity := today_qty / 1000 * quantity_sign
      let oddEntries : List PosEntry :=
        match inv.odd with
        | some o =>
          match o.today_qty with
          | some odd_qty =>
            if odd_qty ≠ 0 then
              if odd_qty > 0 then
                [{ stock_id := inv.stock_no
                   quantity := odd_qty / 1000 * quantity_sign
                   order_condition := order_condition }]
              else []
            else []
          | none => []
        | none => []
      oddEntries ++
        (if today_qty > 0 then
           [{ stock_id := inv.stock_no
              quantity := quantity
              order_condition := order_condition }]
         else [])

/-- An inventory record holding only odd-lot shares: whole-lot `today_qty`
is 0 while the odd sub-record holds 500 shares. -/
def oddOnlyInv : Inventory :=
  { stock_no := "2330"
    order_type := some OrderType.Stock
    today_qty := some 0
    odd := some { today_qty := some 500 } }

/-- A mixed inventory record: 1000 whole-lot shares and 500 odd shares. -/
def mixedInv : Inventory :=
  { stock_no := "2330"
    order_type := some OrderType.Stock
    today_qty := some 1000
    odd := some { today_qty := some 500 } }

/-- The shared mutable rate-limiter state of the account: the single
timestamp `self.timestamp_for_get_position` (in seconds). -/
structure FubonState where
  timestamp_for_get_position : ℚ
deriving DecidableEq, Repr

/-- The sleep `get_position` performs (lines 479-484): if fewer than 10
seconds elapsed since the recorded timestamp, sleep for the remainder. -/
def getPositionWaitSeconds (st : FubonState) (now : ℚ) : ℚ :=
  let total_seconds := now - st.timestamp_for_get_position
  if total_seconds < 10 then 10 - total_seconds else 0

/-- The instant at which `get_position` issues its venue query: call time
plus the rate-limiting sleep. -/
def getPositionQueryTime (st : FubonState) (now : ℚ) : ℚ :=
  now + getPositionWaitSeconds st now

/-- The state update of `get_position` (line 489): the shared timestamp is
set to the time at which the inventories query returned. -/
def getPositionNewState (queryReturnTime : ℚ) : FubonState :=
  { timestamp_for_get_position := queryReturnTime }

/-- Evaluation of `pyInt` on a natural-number literal: the literal itself. -/
theorem pyInt_natCast (n : ℕ) : pyInt (n : ℚ) = n := by
  simp [pyInt]

/-- Truncation: `pyInt` sends any rational in `[0, 1)` to zero. -/
theorem pyInt_lt_one (q : ℚ) (h0 : 0 ≤ q) (h1 : q < 1) : pyInt q = 0 :=
  Int.tdiv_eq_zero_of_lt (Rat.num_nonneg.2 h0)
    (by exact_mod_cast Rat.lt_one_iff_num_lt_denom.1 h1)

/-- C2: for every broker order record with raw triple
(status_code, filled_qty, total_qty), the canonical status produced by
`_create_finlab_order` is exactly the stateless map described by the claim:
10 to NEW, 30 to CANCEL, 50 to FILLED, 90 to CANCEL, any other code to NEW,
overridden to PARTIALLY_FILLED whenever `0 < filled_qty < total_qty` and the
code-derived status is not CANCEL. -/
theorem C2_status_state_machine (orec : ORecord) :
    (createFinlabOrder orec).status =
      statusSpecC2 orec.status (orec.filled_qty.getD 0) (orec.after_qty.getD 0) := by
  simp only [createFinlabOrder, orderStatusOf, statusFromCode, statusSpecC2]

/-- C4: `create_order`'s session classification is the pure function of
(fractional, wall-clock hour and minute) described by the claim, with
strictly open windows; in particular the window boundaries 13:40 and 14:30,
and — for a non-fractional order — exactly 14:00, fall through to the
default branch. -/
theorem C4_session_classification (fractional : Bool) (nowH nowM : Nat) :
    marketTypeOf fractional nowH nowM = sessionSpecC4 fractional nowH nowM ∧
    marketTypeOf fractional 13 40 =
      (if fractional then MarketType.IntradayOdd else MarketType.Common) ∧
    marketTypeOf false 14 0 = MarketType.Common ∧
    marketTypeOf fractional 14 30 =
      (if fractional then MarketType.IntradayOdd else MarketType.Common) := by
  refine ⟨?_, ?_, ?_, ?_⟩
  · cases fractional <;>
      simp only [marketTypeOf, sessionSpecC4, timeLt, Bool.and_true, Bool.and_false,
        Bool.not_true, Bool.not_false, Bool.true_and, Bool.false_and] <;>
      repeat' split <;> simp_all
  · cases fractional <;> decide
  · cases fractional <;> decide
  · cases fractional <;> decide

/-- C5: the price-type resolution of `create_order` applies `market_order`
first (price cleared; limit-up for Buy, limit-down for Sell) and
`best_price_limit` second (price cleared; limit-down for Buy, limit-up for
Sell); when both flags are set the `best_price_limit` resolution is applied
last and determines the final price type, with price cleared in both
cases. -/
theorem C5_price_type_resolution (action : Action) (price : Option ℚ) :
    resolvePriceType action true true price =
      (none, if action = Action.BUY then PriceType.LimitDown else PriceType.LimitUp) ∧
    resolvePriceType action false true price =
      (none, if action = Action.BUY then PriceType.LimitDown else PriceType.LimitUp) ∧
    resolvePriceType action true false price =
      (none, if action = Action.BUY then PriceType.LimitUp else PriceType.LimitDown) ∧
    resolvePriceType action false false price = (price, PriceType.Limit) := by
  cases action <;> simp [resolvePriceType]

/-- C8: a `create_order` call with non-positive quantity fails fast with the
invalid-quantity validation error: no broker order object is built and no
venue call is issued. -/
theorem C8_invalid_quantity_fails_fast (action : Action) (stock_id : String)
    (quantity : ℚ) (price : Option ℚ)
    (odd_lot best_price_limit market_order : Bool)
    (order_cond : OrderCondition) (nowH nowM : Nat)
    (h : quantity ≤ 0) :
    createOrderResult action stock_id quantity price odd_lot best_price_limit
        market_order order_cond nowH nowM =
      Except.error CreateOrderError.invalidQuantity ∧
    createOrderCalls action stock_id quantity price odd_lot best_price_limit
        market_order order_cond nowH nowM = [] := by
  constructor
  · simp [createOrderResult, h]
  · simp [createOrderCalls, createOrderResult, h]

/-- Witness for C8 at quantity 0. -/
theorem C8_invalid_quantity_fails_fast_witness :
    createOrderResult Action.BUY "2330" 0 (some 100) false false false
        OrderCondition.CASH 10 0 =
      Except.error CreateOrderError.invalidQuantity ∧
    createOrderCalls Action.BUY "2330" 0 (some 100) false false false
        OrderCondition.CASH 10 0 = [] :=
  C8_invalid_quantity_fails_fast Action.BUY "2330" 0 (some 100) false false
    false OrderCondition.CASH 10 0 (by norm_num)

/-- C1: a quantity change through `update_order` on an existing order sends
exactly one modify-quantity call whose native quantity is the requested new
quantity converted to native units (times 1000 for whole-lot, as-is for
odd-lot) plus the already-filled native quantity — and whenever the filled
native quantity is non-zero this differs from the converted requested
quantity alone. -/
theorem C1_update_quantity_adds_filled (orders : List (String × COrder))
    (order_id : String) (q : ℚ) (succ : VenueCall → Bool) (nowH nowM : Nat)
    (order : COrder) (h : lookupOrder orders order_id = some order) :
    updateOrderCalls orders order_id none (some q) succ nowH nowM =
      [VenueCall.modifyQuantity order.org_order
        (nativeQtySpecC1 (oddFamily order.org_order.market_type) q +
          pyInt (order.org_order.filled_qty.getD 0))] ∧
    (pyInt (order.org_order.filled_qty.getD 0) ≠ 0 →
      nativeQtySpecC1 (oddFamily order.org_order.market_type) q +
          pyInt (order.org_order.filled_qty.getD 0) ≠
        nativeQtySpecC1 (oddFamily order.org_order.market_type) q) := by
  constructor
  · simp only [updateOrderCalls, h, nativeQtySpecC1]
    split <;> simp
  · intro hf
    omega

/-- Witness for C1: updating the order `wholeRec300` (a whole-lot order with
300 filled native shares) to 2 lots sends 2000 + 300 = 2300, not 2000. -/
theorem C1_update_quantity_adds_filled_witness :
    updateOrderCalls [("W1", createFinlabOrder wholeRec300)] "W1" none
        (some 2) (fun _ => true) 10 0 =
      [VenueCall.modifyQuantity wholeRec300 2300] ∧
    (2300 : Int) ≠ 2000 := by
  have h := C1_update_quantity_adds_filled
    [("W1", createFinlabOrder wholeRec300)] "W1" 2 (fun _ => true) 10 0
    (createFinlabOrder wholeRec300) (by simp [lookupOrder])
  refine ⟨?_, by decide⟩
  rw [h.1]
  have h2 : ((2 : ℚ) * 1000) = (2000 : ℚ) := by norm_num
  simp [createFinlabOrder, wholeRec300, nativeQtySpecC1, oddFamily, h2, pyInt]

/-- C10: when the given order id is not a key of the map `get_orders`
returned, both `update_order` and `cancel_order` issue no modify-price,
modify-quantity, cancel or order-creation call at all. -/
theorem C10_unknown_order_id_noop (orders : List (String × COrder))
    (order_id : String) (price quantity : Option ℚ) (succ : VenueCall → Bool)
    (nowH nowM : Nat) (h : lookupOrder orders order_id = none) :
    updateOrderCalls orders order_id price quantity succ nowH nowM = [] ∧
    cancelOrderCalls orders order_id = [] := by
  constructor
  · simp [updateOrderCalls, h]
  · simp [cancelOrderCalls, h]

/-- Witness for C10: the unknown id "Z9" against a one-order map. -/
theorem C10_unknown_order_id_noop_witness :
    updateOrderCalls [("W1", createFinlabOrder wholeRec300)] "Z9" (some 10)
        (some 1) (fun _ => true) 10 0 = [] ∧
    cancelOrderCalls [("W1", createFinlabOrder wholeRec300)] "Z9" = [] :=
  C10_unknown_order_id_noop [("W1", createFinlabOrder wholeRec300)] "Z9"
    (some 10) (some 1) (fun _ => true) 10 0 (by decide)

/-- C3 (code bug evaluation): a price update on the odd-lot order
`oddRec100` (100 unfilled native shares) cancels the order by modifying its
quantity to zero, and then submits exactly one new odd-lot order — but that
order's native quantity is `int((100 / 1000)) = 0`, not the unfilled
remainder of 100, because `update_order` passes `qty / 1000` while
`create_order` takes an odd-lot quantity as-is (line 763). -/
theorem C3_odd_lot_recreate_loses_remainder :
    updateOrderCalls [("O1", createFinlabOrder oddRec100)] "O1"
        (some 33) none (fun _ => true) 10 0 =
      [VenueCall.modifyQuantity oddRec100 0,
       VenueCall.placeOrder
         { buy_sell := BSAction.Buy
           symbol := "0056"
           price := some 33
           quantity := 0
           market_type := MarketType.IntradayOdd
           price_type := PriceType.Limit
           time_in_force := TimeInForce.ROD
           order_type := OrderType.Stock }] ∧
    (0 : Int) ≠ 100 := by
  have hq : pyInt ((100 : ℚ) / 1000) = 0 :=
    pyInt_lt_one _ (by norm_num) (by norm_num)
  have hpos : ¬((100 : ℚ) / 1000 ≤ 0) := by norm_num
  constructor
  · simp [updateOrderCalls, lookupOrder, createFinlabOrder, oddRec100, oddFamily,
      createOrderCalls, createOrderResult, marketTypeOf, timeLt, resolvePriceType,
      convertQty, mapCondToOrderType, mapOrderAction, hq, hpos]
  · decide

/-- If every alias of a two-alias probe is absent, the probed value is 0. -/
theorem probe2_eq_zero (a b : Option ℚ) (h : opt2 a b = none) : probe2 a b = 0 := by
  simp [probe2, h]

/-- If every alias of a three-alias probe is absent, the probed value is 0. -/
theorem probe3_eq_zero (a b c : Option ℚ) (h : opt3 a b c = none) :
    probe3 a b c = 0 := by
  simp [probe3, h]

/-- C6: quote normalization never raises — `_create_finlab_stock` is a total
function into populated `Stock` values — and for every record shape (dict or
object): an OHLC field whose aliases are all missing is zeroed; when no
symbol is present the supplied fallback id is substituted; an empty bid
(resp. ask) list yields best-bid (resp. best-ask) price 0 and size 0, and a
non-empty list yields the price and size extracted from its first element
(with absent sub-fields reading as 0). -/
theorem C6_quote_normalization (q : QuoteRecord) (fb : String) :
    (openOf q = none → (createFinlabStock q (some fb)).open_ = 0) ∧
    (highOf q = none → (createFinlabStock q (some fb)).high = 0) ∧
    (lowOf q = none → (createFinlabStock q (some fb)).low = 0) ∧
    (closeOf q = none → (createFinlabStock q (some fb)).close = 0) ∧
    (symbolOf q = none → (createFinlabStock q (some fb)).stock_id = some fb) ∧
    (bidsOf q = [] → (createFinlabStock q (some fb)).bid_price = 0 ∧
      (createFinlabStock q (some fb)).bid_volume = 0) ∧
    (∀ e rest, bidsOf q = e :: rest →
      (createFinlabStock q (some fb)).bid_price = baPrice e ∧
      (createFinlabStock q (some fb)).bid_volume = baSize e) ∧
    (asksOf q = [] → (createFinlabStock q (some fb)).ask_price = 0 ∧
      (createFinlabStock q (some fb)).ask_volume = 0) ∧
    (∀ e rest, asksOf q = e :: rest →
      (createFinlabStock q (some fb)).ask_price = baPrice e ∧
      (createFinlabStock q (some fb)).ask_volume = baSize e) := by
  cases q with
  | dict r =>
    refine ⟨?_, ?_, ?_, ?_, ?_, ?_, ?_, ?_, ?_⟩
    · intro h; simp [createFinlabStock, finishStock, openOf] at h ⊢; simp [h]
    · intro h; simp [createFinlabStock, finishStock, highOf] at h ⊢; simp [h]
    · intro h; simp [createFinlabStock, finishStock, lowOf] at h ⊢; simp [h]
    · intro h; simp [createFinlabStock, finishStock, closeOf] at h ⊢; simp [h]
    · intro h
      simp only [symbolOf] at h
      simp only [createFinlabStock, finishStock, h]
      split <;> rfl
    · intro h
      simp only [bidsOf] at h
      simp [createFinlabStock, finishStock, h]
    · intro e rest h
      simp only [bidsOf] at h
      simp [createFinlabStock, finishStock, h]
    · intro h
      simp only [asksOf] at h
      simp [createFinlabStock, finishStock, h]
    · intro e rest h
      simp only [asksOf] at h
      simp [createFinlabStock, finishStock, h]
  | obj r =>
    refine ⟨?_, ?_, ?_, ?_, ?_, ?_, ?_, ?_, ?_⟩
    · intro h
      simp only [openOf] at h
      simp [createFinlabStock, finishStock, probe2_eq_zero _ _ h]
    · intro h
      simp only [highOf] at h
      simp [createFinlabStock, finishStock, probe2_eq_zero _ _ h]
    · intro h
      simp only [lowOf] at h
      simp [createFinlabStock, finishStock, probe2_eq_zero _ _ h]
    · intro h
      simp only [closeOf] at h
      simp [createFinlabStock, finishStock, probe3_eq_zero _ _ _ h]
    · intro h
      simp only [symbolOf] at h
      simp only [createFinlabStock, finishStock, h, Option.getD_some]
      split <;> rfl
    · intro h
      simp only [bidsOf] at h
      simp [createFinlabStock, finishStock, h]
    · intro e rest h
      simp only [bidsOf] at h
      simp [createFinlabStock, finishStock, h]
    · intro h
      simp only [asksOf] at h
      simp [createFinlabStock, finishStock, h]
    · intro e rest h
      simp only [asksOf] at h
      simp [createFinlabStock, finishStock, h]

/-- Witness for C6: the empty object record degrades to all zeros with the
fallback id, and the sample dict record takes its first bid/ask entries
(absent ask size reading as 0). -/
theorem C6_quote_normalization_witness :
    (createFinlabStock emptyObjQuote (some "1101")).open_ = 0 ∧
    (createFinlabStock emptyObjQuote (some "1101")).high = 0 ∧
    (createFinlabStock emptyObjQuote (some "1101")).low = 0 ∧
    (createFinlabStock emptyObjQuote (some "1101")).close = 0 ∧
    (createFinlabStock emptyObjQuote (some "1101")).stock_id = some "1101" ∧
    (createFinlabStock emptyObjQuote (some "1101")).bid_price = 0 ∧
    (createFinlabStock emptyObjQuote (some "1101")).bid_volume = 0 ∧
    (createFinlabStock emptyObjQuote (some "1101")).ask_price = 0 ∧
    (createFinlabStock emptyObjQuote (some "1101")).ask_volume = 0 ∧
    (createFinlabStock sampleDictQuote (some "2330")).bid_price =
      baPrice (BidAskItem.dict { price := some 99, size := some 1000 }) ∧
    (createFinlabStock sampleDictQuote (some "2330")).ask_volume =
      baSize (BidAskItem.obj { price := some 101, size := none }) := by
  have h1 := C6_quote_normalization emptyObjQuote "1101"
  have h2 := C6_quote_normalization sampleDictQuote "2330"
  refine ⟨h1.1 rfl, h1.2.1 rfl, h1.2.2.1 rfl, h1.2.2.2.1 rfl, h1.2.2.2.2.1 rfl,
    (h1.2.2.2.2.2.1 rfl).1, (h1.2.2.2.2.2.1 rfl).2,
    (h1.2.2.2.2.2.2.2.1 rfl).1, (h1.2.2.2.2.2.2.2.1 rfl).2,
    (h2.2.2.2.2.2.2.1 _ [] rfl).1,
    (h2.2.2.2.2.2.2.2.2 _ [] rfl).2⟩

/-- Counterexample to C7: `oddOnlyInv` has a zero whole-lot quantity but a
positive fractional quantity of 500 shares, yet `get_position` produces no
entry at all for it — `if not today_qty: continue` fires before the
odd-lot block is reached. -/
theorem C7_counterexample :
    positionsOf oddOnlyInv = [] ∧ 0 < oddQtyOf oddOnlyInv := by
  constructor
  · simp [positionsOf, oddOnlyInv]
  · norm_num [oddQtyOf, oddOnlyInv]

/-- Normal form of `positionsOf`: guard on the instrument id, guard on the
whole-lot quantity, then the fractional entry (when positive) followed by
the whole-lot entry (when positive). -/
theorem positionsOf_eq (inv : Inventory) :
    positionsOf inv =
      if inv.stock_no = "" then []
      else if inv.today_qty.getD 0 = 0 then []
      else
        (if 0 < oddQtyOf inv then
           [{ stock_id := inv.stock_no
              quantity := oddQtyOf inv / 1000 *
                (if mapOrderCondition inv.order_type = OrderCondition.SHORT_SELLING
                 then -1 else 1)
              order_condition := mapOrderCondition inv.order_type }]
         else []) ++
        (if 0 < inv.today_qty.getD 0 then
           [{ stock_id := inv.stock_no
              quantity := inv.today_qty.getD 0 / 1000 *
                (if mapOrderCondition inv.order_type = OrderCondition.SHORT_SELLING
                 then -1 else 1)
              order_condition := mapOrderCondition inv.order_type }]
         else []) := by
  obtain ⟨sn, ot, tq, od⟩ := inv
  simp only [positionsOf]
  by_cases hs : sn = ""
  · rw [if_pos hs, if_pos hs]
  · rw [if_neg hs, if_neg hs]
    by_cases ht : tq.getD 0 = 0
    · rw [if_pos ht, if_pos ht]
    · rw [if_neg ht, if_neg ht]
      congr 1
      · cases od with
        | none => simp [oddQtyOf]
        | some o =>
          obtain ⟨oq⟩ := o
          cases oq with
          | none => simp [oddQtyOf]
          | some v =>
            simp only [oddQtyOf, Option.getD_some, gt_iff_lt]
            by_cases hv : v = 0
            · subst hv
              simp
            · rw [if_pos hv]

/-- C7 (amended): an inventory record produces no entry exactly when its
instrument id is empty, its whole-lot quantity is zero or absent, or neither
the fractional nor the whole-lot quantity is positive; when the id is
non-empty and the whole-lot quantity is non-zero, the fractional and
whole-lot holdings are reported as separate entries — fractional first —
each negated under the short-selling condition. -/
theorem C7_position_entries (inv : Inventory) :
    (positionsOf inv = [] ↔
      inv.stock_no = "" ∨ inv.today_qty.getD 0 = 0 ∨
        (¬ 0 < oddQtyOf inv ∧ ¬ 0 < inv.today_qty.getD 0)) ∧
    (inv.stock_no ≠ "" → inv.today_qty.getD 0 ≠ 0 →
      positionsOf inv =
        (if 0 < oddQtyOf inv then
           [{ stock_id := inv.stock_no
              quantity := oddQtyOf inv / 1000 *
                (if mapOrderCondition inv.order_type = OrderCondition.SHORT_SELLING
                 then -1 else 1)
              order_condition := mapOrderCondition inv.order_type }]
         else []) ++
        (if 0 < inv.today_qty.getD 0 then
           [{ stock_id := inv.stock_no
              quantity := inv.today_qty.getD 0 / 1000 *
                (if mapOrderCondition inv.order_type = OrderCondition.SHORT_SELLING
                 then -1 else 1)
              order_condition := mapOrderCondition inv.order_type }]
         else [])) := by
  constructor
  · rw [positionsOf_eq]
    by_cases hs : inv.stock_no = ""
    · simp [hs]
    · rw [if_neg hs]
      by_cases ht : inv.today_qty.getD 0 = 0
      · simp [ht]
      · rw [if_neg ht]
        simp only [List.append_eq_nil, ite_eq_right_iff,
          List.cons_ne_nil, imp_false]
        constructor
        · intro h
          exact Or.inr (Or.inr h)
        · intro h
          rcases h with h | h | h
          · exact absurd h hs
          · exact absurd h ht
          · exact h
  · intro hs ht
    rw [positionsOf_eq, if_neg hs, if_neg ht]

/-- Witness for C7 (amended): the mixed record (1000 whole-lot shares and
500 odd shares) yields the fractional entry (0.5 lot) followed by the
whole-lot entry (1 lot), both positive cash positions. -/
theorem C7_position_entries_witness :
    positionsOf mixedInv =
      [{ stock_id := "2330", quantity := 1 / 2,
         order_condition := OrderCondition.CASH },
       { stock_id := "2330", quantity := 1,
         order_condition := OrderCondition.CASH }] := by
  have h := (C7_position_entries mixedInv).2 (by simp [mixedInv])
    (by norm_num [mixedInv])
  rw [h]
  norm_num [mixedInv, oddQtyOf, mapOrderCondition]
  decide

/-- C9: two back-to-back `get_position` calls share the single recorded
timestamp; when the second call starts less than 10 seconds after the
timestamp recorded by the first call, it sleeps exactly the remainder, so
its venue query is issued precisely 10 seconds after the recorded
timestamp — never earlier. -/
theorem C9_rate_limit (firstRecorded now2 : ℚ)
    (h : now2 - firstRecorded < 10) :
    getPositionQueryTime (getPositionNewState firstRecorded) now2 =
      firstRecorded + 10 ∧
    10 ≤ getPositionQueryTime (getPositionNewState firstRecorded) now2 -
      firstRecorded := by
  unfold getPositionQueryTime getPositionWaitSeconds getPositionNewState
  simp only
  rw [if_pos h]
  exact ⟨by linarith, by linarith⟩

/-- Witness for C9: a second call 5 seconds after the recorded timestamp 100
issues its query at 110. -/
theorem C9_rate_limit_witness :
    getPositionQueryTime (getPositionNewState 100) 105 = 100 + 10 ∧
    10 ≤ getPositionQueryTime (getPositionNewState 100) 105 - 100 :=
  C9_rate_limit 100 105 (by norm_num)

end Fubon
